import Mathlib

/-!
Shallow embedding of `src/simple-qa-agent/agent.py` (the provider
abstraction and conversation loop of the repository) and proofs of the
specification claims about it.

Modelling conventions:
* Python strings are Lean `String`; Python `needle in haystack` is
  `contains_substr haystack needle` (substring containment).
* The remote vendor completion call is an oracle parameter
  (`net : Request → Except String String` at the adapter level, or
  `p : List Message → Except String String` at the assistant level,
  standing for `self.provider.generate_completion`).  The Python pair
  convention `(text, None) / (None, error)` is rendered as
  `Except String String` (`.ok text` / `.error msg`): the adapters only
  ever return one of the two shapes, with a non-empty error string.
* The module-level global `system_message` used by the Anthropic message
  conversion is passed and returned explicitly as an `Option String`
  (`none` = the name was never assigned, so reading it raises `NameError`).
* Raised Python exceptions that escape a function are `Except.error`.
-/

/-- Python `str.lower()` (ASCII case folding, which covers every string
the program manipulates). -/
def py_lower (s : String) : String :=
  String.mk (s.data.map Char.toLower)

/-- Python `needle in haystack` (substring containment) on strings. -/
def contains_substr (haystack needle : String) : Bool :=
  let h := haystack.toList
  (List.range (h.length + 1)).any (fun i => needle.toList.isPrefixOf (h.drop i))

/-- Message roles; the program only ever constructs these three. -/
inductive Role where
  | system
  | user
  | assistant
deriving DecidableEq, Repr

/-- A chat message, `{"role": ..., "content": ...}`. -/
structure Message where
  role : Role
  content : String
deriving DecidableEq, Repr

/-- The two vendors of `agent.py`. -/
inductive ProviderKind where
  | openai
  | anthropic
deriving DecidableEq, Repr

/-- The mutable state of a provider adapter: which vendor it wraps and the
currently selected model name (`none` = the Python attribute holds `None`,
or for OpenAI was never assigned before `set_model`). -/
structure Provider where
  kind : ProviderKind
  modelName : Option String
deriving DecidableEq, Repr

/-- The outbound completion request handed to the vendor SDK:
`model=..., messages=..., max_tokens=...` (agent.py lines 40-44, 88-92). -/
structure Request where
  model : Option String
  messages : List Message
  maxTokens : Nat
deriving DecidableEq, Repr

/-- Python `str()` of a possibly-`None` string, as used by f-strings. -/
def py_str_opt : Option String → String
  | none => "None"
  | some s => s

/-- Embedding of `OpenAIProvider.set_model` / `AnthropicProvider.set_model`
(agent.py lines 67-68, 134-135): an unchecked assignment
`self.model_name = model_name`. -/
def set_model (p : Provider) (model_name : Option String) : Provider :=
  { p with modelName := model_name }

/-- The error kinds of `OpenAIProvider.generate_completion`
(agent.py lines 49-54): the two keyword branches plus the fallback. -/
inductive ErrKind where
  | authentication
  | modelUnavailable
  | other
deriving DecidableEq, Repr

/-- Classification branch of `OpenAIProvider.generate_completion`
(agent.py lines 47-54): lowercase the vendor error text, then the first
matching keyword set wins. -/
def classify_error (raw : String) : ErrKind :=
  let error_message := py_lower raw
  if ["authentication", "auth", "key"].any
      (fun keyword => contains_substr error_message keyword) then
    ErrKind.authentication
  else if ["model", "not found", "doesn\x27t exist"].any
      (fun keyword => contains_substr error_message keyword) then
    ErrKind.modelUnavailable
  else
    ErrKind.other

/-- The error string `OpenAIProvider.generate_completion` returns for a
vendor error `raw` (agent.py lines 49-54). -/
def openai_error_message (p : Provider) (raw : String) : String :=
  match classify_error raw with
  | ErrKind.authentication => "Authentication failed. Please check your API key."
  | ErrKind.modelUnavailable =>
      "The model \x27" ++ py_str_opt p.modelName ++
        "\x27 is not available. Please try a different model."
  | ErrKind.other => "Error: " ++ raw

/-- The request `OpenAIProvider.generate_completion` hands to the vendor
client (agent.py lines 40-44). -/
def outbound_request (p : Provider) (messages : List Message) (maxTokens : Nat) :
    Request :=
  { model := p.modelName, messages := messages, maxTokens := maxTokens }

/-- Embedding of `OpenAIProvider.generate_completion` (agent.py lines 38-54), with the
vendor client call abstracted as the oracle `net`. -/
def openai_generate_completion (net : Request → Except String String)
    (p : Provider) (messages : List Message) (maxTokens : Nat := 500) :
    Except String String :=
  match net (outbound_request p messages maxTokens) with
  | Except.ok text => Except.ok text
  | Except.error e => Except.error (openai_error_message p e)

/-- Python exceptions raised (not returned) by the embedded code. -/
inductive PyError where
  | nameError
deriving DecidableEq, Repr

/-- The loop of `AnthropicProvider._convert_messages_to_anthropic_format`
(agent.py lines 102-114): walks the messages, capturing each system
content into the global (last one wins) and appending user/assistant
messages in order. -/
def convert_loop : Option String → List Message → List Message →
    Option String × List Message
  | system_message, anthropic_messages, [] => (system_message, anthropic_messages)
  | system_message, anthropic_messages, msg :: rest =>
    match msg.role with
    | Role.system => convert_loop (some msg.content) anthropic_messages rest
    | Role.user =>
        convert_loop system_message
          (anthropic_messages ++ [{ role := Role.user, content := msg.content }]) rest
    | Role.assistant =>
        convert_loop system_message
          (anthropic_messages ++ [{ role := Role.assistant, content := msg.content }]) rest

/-- Embedding of `AnthropicProvider._convert_messages_to_anthropic_format`
(agent.py lines 97-121).  `g` is the incoming value of the module-level
global `system_message` (`none` = never assigned); the second component
of the result is its value after the call.  Reading an unassigned global
at `if system_message:` raises `NameError`; an empty captured string is
falsy, so no system entry is inserted then. -/
def convert_messages_to_anthropic_format (g : Option String)
    (messages : List Message) : Except PyError (List Message) × Option String :=
  match convert_loop g [] messages with
  | (none, _) => (Except.error PyError.nameError, none)
  | (some system_message, anthropic_messages) =>
      if system_message ≠ "" then
        (Except.ok ({ role := Role.system, content := system_message } ::
            anthropic_messages), some system_message)
      else
        (Except.ok anthropic_messages, some system_message)

/-- Python `str()` of the `NameError` the conversion raises. -/
def py_err_str : PyError → String
  | PyError.nameError => "name \x27system_message\x27 is not defined"

/-- Embedding of `AnthropicProvider.generate_completion` (agent.py lines 83-95):
converts the messages (threading the global `g`), calls the vendor, and
wraps EVERY caught exception as `"Anthropic API error: ..."` with no
keyword classification. -/
def anthropic_generate_completion (net : Request → Except String String)
    (g : Option String) (p : Provider) (messages : List Message)
    (maxTokens : Nat := 500) : Except String String × Option String :=
  match convert_messages_to_anthropic_format g messages with
  | (Except.error e, g2) =>
      (Except.error ("Anthropic API error: " ++ py_err_str e), g2)
  | (Except.ok prompt, g2) =>
      match net { model := p.modelName, messages := prompt, maxTokens := maxTokens } with
      | Except.ok text => (Except.ok text, g2)
      | Except.error e => (Except.error ("Anthropic API error: " ++ e), g2)

/-- The orchestrator state: the active provider and the conversation
history (`CodingAssistant.__init__`, agent.py lines 141-156). -/
structure AssistantState where
  provider : Provider
  history : List Message
deriving DecidableEq, Repr

/-- Embedding of `CodingAssistant._get_provider` (agent.py lines 176-183): constructs
the adapter for a lowercased vendor name or raises
`ValueError(f"Unsupported provider: {provider_name}")`.  The OpenAI
constructor leaves `model_name` unset; the Anthropic constructor defaults
it to `"claude-3-opus-20240229"` (agent.py line 79).  The api key is
stored on the adapter and plays no further role in the model. -/
def get_provider (provider_name : String) (_api_key : Option String) :
    Except String Provider :=
  if py_lower provider_name = "openai" then
    Except.ok { kind := ProviderKind.openai, modelName := none }
  else if py_lower provider_name = "anthropic" then
    Except.ok { kind := ProviderKind.anthropic, modelName := some ("claude-3-opus-20240229") }
  else
    Except.error ("Unsupported provider: " ++ provider_name)

/-- The vendor-specific default model chosen when the caller passes no
model name (agent.py lines 146-150 and 248-252; note the exact, not
lowercased, comparison of `provider_name`). -/
def default_model (provider_name : String) (model_name : Option String) :
    Option String :=
  match model_name with
  | some m => some m
  | none =>
      if provider_name = "openai" then some ("gpt-3.5-turbo")
      else if provider_name = "anthropic" then some ("claude-3-haiku-20240307")
      else none

/-- The system prompt set in `CodingAssistant.__init__`
(agent.py lines 159-174); transcribed flat, whitespace abbreviated. -/
def system_prompt : String :=
  "You are a specialized coding assistant focused exclusively on programming-related queries. " ++
  "Guidelines: 1. Only respond to questions related to programming, software development, " ++
  "algorithms, data structures, debugging, or development tools. 2. For non-coding questions, " ++
  "politely explain that you\x27re a specialized coding assistant and can only help with " ++
  "programming-related topics. 3. Provide clear, well-commented code examples when appropriate. " ++
  "4. Explain your code and reasoning to help the user learn. 5. If you\x27re unsure about " ++
  "something, acknowledge the limitations rather than guessing. 6. Focus on best practices and " ++
  "secure coding standards. Remember, your purpose is to help users become better programmers " ++
  "through accurate, educational, and helpful responses to coding questions."

/-- The state of a freshly constructed `CodingAssistant()` (agent.py lines
141-156): OpenAI provider, default model `"gpt-3.5-turbo"`, empty history. -/
def initial_state : AssistantState :=
  { provider := { kind := ProviderKind.openai, modelName := some ("gpt-3.5-turbo") },
    history := [] }

/-- Embedding of `CodingAssistant.add_to_history` (agent.py lines 185-187). -/
def add_to_history (st : AssistantState) (role : Role) (content : String) :
    AssistantState :=
  { st with history := st.history ++ [{ role := role, content := content }] }

/-- The keyword list of `CodingAssistant.is_coding_related`
(agent.py lines 192-211), duplicates included. -/
def coding_keywords : List String :=
  ["code", "program", "function", "class", "method", "variable",
   "algorithm", "data structure", "api", "framework", "library",
   "debugging", "error", "exception", "syntax", "compiler",
   "interpreter", "runtime", "development", "software", "git",
   "html", "css", "javascript", "python", "java", "c++", "c#",
   "ruby", "php", "sql", "database", "frontend", "backend",
   "fullstack", "web", "mobile", "app", "development", "devops",
   "cloud", "server", "client", "api", "rest", "json", "xml",
   "http", "request", "response", "async", "promise", "callback",
   "bug", "fix", "issue", "implement", "feature", "test", "unit test",
   "integration test", "deployment", "build", "package", "module",
   "import", "export", "dependency", "npm", "pip", "gem", "nuget",
   "docker", "kubernetes", "container", "virtual machine", "vm",
   "ide", "editor", "terminal", "command line", "shell", "bash",
   "powershell", "script", "automation", "ci/cd", "continuous integration",
   "version control", "repository", "commit", "merge", "pull request",
   "branch", "checkout", "clone", "fork", "open source", "license",
   "ownership"]

/-- Embedding of `CodingAssistant.is_coding_related` (agent.py lines 189-215): any
keyword is a substring of the lowercased query. -/
def is_coding_related (query : String) : Bool :=
  let query_lower := py_lower query
  coding_keywords.any (fun keyword => contains_substr query_lower keyword)

/-- The fixed refusal string of `CodingAssistant.get_response`
(agent.py lines 221-222). -/
def refusal_string : String :=
  "I\x27m a specialized coding assistant and can only help with programming-related questions. " ++
  "Please ask me about coding, software development, algorithms, debugging, or related topics."

/-- Embedding of `CodingAssistant.get_response` (agent.py lines 217-240).  `p` stands
for `self.provider.generate_completion`; the Python pair `(text, error)`
is `Except.ok text` / `Except.error error`.  Returns the reply string and
the assistant state after the call. -/
def get_response (p : List Message → Except String String)
    (st : AssistantState) (user_input : String) : String × AssistantState :=
  if ! is_coding_related user_input then
    (refusal_string, st)
  else
    let st1 := add_to_history st Role.user user_input
    let messages : List Message :=
      { role := Role.system, content := system_prompt } :: st1.history
    match p messages with
    | Except.error error => ("Error: " ++ error, st1)
    | Except.ok response_text =>
        (response_text, add_to_history st1 Role.assistant response_text)

/-- Embedding of `CodingAssistant.change_provider` (agent.py lines 242-260).  The
`try/except` is the `match` on `get_provider`: the only raising step is
adapter construction, whose `ValueError` text is wrapped as
`"Error changing provider: ..."`; every outcome is a returned string. -/
def change_provider (st : AssistantState) (provider_name : String)
    (model_name : Option String) (api_key : Option String) :
    String × AssistantState :=
  match get_provider provider_name api_key with
  | Except.error e => ("Error changing provider: " ++ e, st)
  | Except.ok new_provider =>
      let model_name := default_model provider_name model_name
      let new_provider := set_model new_provider model_name
      ("Provider changed to " ++ provider_name ++ " using model " ++
          py_str_opt model_name,
        { st with provider := new_provider })

/-- Embedding of `CodingAssistant.change_model` (agent.py lines 262-268). -/
def change_model (st : AssistantState) (model_name : String) :
    String × AssistantState :=
  ("Model changed to " ++ model_name,
    { st with provider := set_model st.provider (some model_name) })

/-- Embedding of `CodingAssistant.clear_history` (agent.py lines 270-273). -/
def clear_history (st : AssistantState) : String × AssistantState :=
  ("Conversation history cleared.", { st with history := [] })

/-- Iterating `get_response` over a list of user inputs, threading the
assistant state (the interactive loop of main.py re-invoking the core). -/
def run_list (p : List Message → Except String String)
    (st : AssistantState) : List String → AssistantState
  | [] => st
  | input :: rest => run_list p (get_response p st input).2 rest

/-- The content of the last system-role message of a list, if any
(specification-side helper for stating properties of the conversion). -/
def last_system_content : List Message → Option String
  | [] => none
  | msg :: rest =>
    match msg.role with
    | Role.system => some ((last_system_content rest).getD msg.content)
    | _ => last_system_content rest

/-- The user and assistant messages of a list, in order
(specification-side helper). -/
def non_system_messages (messages : List Message) : List Message :=
  messages.filter (fun m => ! (m.role == Role.system))

/-- The five error kinds the specification lists in §7. -/
inductive SpecErrKind where
  | authentication
  | rateLimit
  | modelUnavailable
  | connectionFailure
  | other
deriving DecidableEq, Repr

/-- Modelled from the spec: the §7 error classifier ("lowercase substring
match, first matching kind wins in the order listed") with the keyword
sets of §7, stated for comparison with `classify_error` from the code. -/
def spec_classify (raw : String) : SpecErrKind :=
  let t := py_lower raw
  if ["authentication", "auth", "key", "invalid key"].any
      (fun k => contains_substr t k) then SpecErrKind.authentication
  else if ["rate limit", "ratelimit", "requests", "quota"].any
      (fun k => contains_substr t k) then SpecErrKind.rateLimit
  else if ["model", "not found", "doesn\x27t exist", "does not exist"].any
      (fun k => contains_substr t k) then SpecErrKind.modelUnavailable
  else if ["connection", "network", "timeout", "connect"].any
      (fun k => contains_substr t k) then SpecErrKind.connectionFailure
  else SpecErrKind.other

/-- The conversion loop captures the last system content (falling back to
the incoming global) and keeps the non-system messages in order. -/
theorem convert_loop_eq (messages : List Message) :
    ∀ (g : Option String) (acc : List Message),
      convert_loop g acc messages
        = ((match last_system_content messages with
            | some s => some s
            | none => g),
           acc ++ non_system_messages messages) := by
  induction messages with
  | nil => intro g acc; simp [convert_loop, last_system_content, non_system_messages]
  | cons msg rest ih =>
    intro g acc
    obtain ⟨r, c⟩ := msg
    cases r with
    | system =>
        rw [show convert_loop g acc ({ role := Role.system, content := c } :: rest)
            = convert_loop (some c) acc rest from rfl, ih]
        have hf : non_system_messages ({ role := Role.system, content := c } :: rest)
            = non_system_messages rest := by
          simp [non_system_messages]
        rw [hf]
        have hl : last_system_content ({ role := Role.system, content := c } :: rest)
            = some ((last_system_content rest).getD c) := rfl
        rw [hl]
        cases last_system_content rest <;> rfl
    | user =>
        rw [show convert_loop g acc ({ role := Role.user, content := c } :: rest)
            = convert_loop g (acc ++ [{ role := Role.user, content := c }]) rest from rfl, ih]
        have hf : non_system_messages ({ role := Role.user, content := c } :: rest)
            = { role := Role.user, content := c } :: non_system_messages rest := by
          simp [non_system_messages]
        rw [hf]
        have hl : last_system_content ({ role := Role.user, content := c } :: rest)
            = last_system_content rest := rfl
        rw [hl, List.append_assoc]
        rfl
    | assistant =>
        rw [show convert_loop g acc ({ role := Role.assistant, content := c } :: rest)
            = convert_loop g (acc ++ [{ role := Role.assistant, content := c }]) rest from rfl, ih]
        have hf : non_system_messages ({ role := Role.assistant, content := c } :: rest)
            = { role := Role.assistant, content := c } :: non_system_messages rest := by
          simp [non_system_messages]
        rw [hf]
        have hl : last_system_content ({ role := Role.assistant, content := c } :: rest)
            = last_system_content rest := rfl
        rw [hl, List.append_assoc]
        rfl

/-- C2 counterexample: the spec classifier of §7 sends vendor text
`"quota"` to RateLimit, but `OpenAIProvider.generate_completion` has no
RateLimit branch at all — `"quota"` matches neither keyword set and falls
into the `Other` fallback, returning the generic `"Error: quota"` string. -/
theorem quota_not_ratelimit_counterexample :
    spec_classify ("quota") = SpecErrKind.rateLimit
    ∧ classify_error ("quota") = ErrKind.other
    ∧ openai_generate_completion (fun _ => Except.error ("quota"))
        initial_state.provider [] 500 = Except.error ("Error: quota") := by
  refine ⟨by decide, by decide, rfl⟩

/-- C2 amended: `"invalid key"` classifies as Authentication (keyword
`"key"`), and Authentication is checked before ModelUnavailable (first
match wins); the code defines no RateLimit kind, so `"quota"` falls to
the Other fallback with the vendor text preserved; `"foo bar"` likewise
falls to Other with the text preserved verbatim; the Anthropic adapter
performs no classification at all and wraps every vendor error as
`"Anthropic API error: ..."`. -/
theorem error_classification_amended :
    classify_error ("invalid key") = ErrKind.authentication
    ∧ openai_error_message initial_state.provider ("invalid key")
        = "Authentication failed. Please check your API key."
    ∧ classify_error ("key model") = ErrKind.authentication
    ∧ classify_error ("quota") = ErrKind.other
    ∧ openai_error_message initial_state.provider ("quota") = "Error: quota"
    ∧ classify_error ("foo bar") = ErrKind.other
    ∧ openai_error_message initial_state.provider ("foo bar") = "Error: foo bar"
    ∧ (anthropic_generate_completion (fun _ => Except.error ("invalid key"))
          (some ("sys")) { kind := ProviderKind.anthropic, modelName := some ("claude-3-haiku-20240307") }
          [{ role := Role.user, content := "hi" }] 500).1
        = Except.error ("Anthropic API error: invalid key") := by
  refine ⟨by decide, rfl, by decide, by decide, rfl, by decide, rfl, rfl⟩

/-- C6 counterexample: on a message list whose (only and last) system
message has empty content, the Python truthiness test `if system_message:`
is false, so the conversion inserts NO system entry at all — the output
list has zero system entries, not exactly one positioned first. -/
theorem anthropic_empty_system_counterexample :
    (convert_messages_to_anthropic_format none
        [{ role := Role.system, content := "" }, { role := Role.user, content := "hi" }]).1
      = Except.ok [{ role := Role.user, content := "hi" }]
    ∧ (List.filter (fun m => m.role == Role.system)
        [({ role := Role.user, content := "hi" } : Message)]).length = 0 := by
  refine ⟨rfl, rfl⟩

/-- C6 amended: for every message list containing at least one
system-role message whose LAST occurrence has non-empty content, the
conversion (whatever the prior global) returns exactly one system entry,
positioned first, carrying that last system content, followed by the
user and assistant messages of the input in their original order — and none of
those trailing messages is a system entry. -/
theorem anthropic_conversion_extracts_last_system (g : Option String)
    (messages : List Message) (s : String)
    (hs : last_system_content messages = some s) (hne : s ≠ "") :
    convert_messages_to_anthropic_format g messages
      = (Except.ok ({ role := Role.system, content := s } ::
          non_system_messages messages), some s)
    ∧ ∀ m ∈ non_system_messages messages, m.role ≠ Role.system := by
  constructor
  · rw [convert_messages_to_anthropic_format, convert_loop_eq, hs]
    simp [hne]
  · intro m hm
    have := List.of_mem_filter hm
    simpa using this

/-- Witness for the amended C6 theorem at a concrete four-message list with
two system messages, the last of which (`"B"`) wins. -/
theorem anthropic_conversion_extracts_last_system_witness :
    convert_messages_to_anthropic_format none
        [{ role := Role.system, content := "A" }, { role := Role.user, content := "u" },
         { role := Role.system, content := "B" }, { role := Role.assistant, content := "a" }]
      = (Except.ok [{ role := Role.system, content := "B" },
          { role := Role.user, content := "u" }, { role := Role.assistant, content := "a" }],
         some ("B")) :=
  (anthropic_conversion_extracts_last_system none
    [{ role := Role.system, content := "A" }, { role := Role.user, content := "u" },
     { role := Role.system, content := "B" }, { role := Role.assistant, content := "a" }]
    "B" rfl (by decide)).1

/-- C7: `set_model` is an unchecked assignment, and a subsequent
`generate_completion` builds its outbound request with exactly the
assigned model name, whatever that name is; when the vendor oracle
answers that request, the answer is returned unchanged. -/
theorem set_model_round_trip (p : Provider) (name : String)
    (messages : List Message) (maxTokens : Nat) :
    (set_model p (some name)).modelName = some name
    ∧ outbound_request (set_model p (some name)) messages maxTokens
        = { model := some name, messages := messages, maxTokens := maxTokens }
    ∧ (∀ (net : Request → Except String String) (t : String),
        net { model := some name, messages := messages, maxTokens := maxTokens }
          = Except.ok t →
        openai_generate_completion net (set_model p (some name)) messages maxTokens
          = Except.ok t) := by
  refine ⟨rfl, rfl, ?_⟩
  intro net t ht
  simp [openai_generate_completion, outbound_request, set_model, ht]

/-- Witness for C7 at model name `"gpt-4"` (not in any served-model list;
the request still carries it and the completion round-trips). -/
theorem set_model_round_trip_witness :
    openai_generate_completion (fun _ => Except.ok ("hi"))
        (set_model initial_state.provider (some ("gpt-4"))) [] 500 = Except.ok ("hi") :=
  (set_model_round_trip initial_state.provider ("gpt-4") [] 500).2.2
    (fun _ => Except.ok ("hi")) "hi" rfl

/-- C9: `clear_history` resets the conversation history to the empty
sequence, whatever it held before, and returns the confirmation string. -/
theorem clear_history_resets (st : AssistantState) :
    (clear_history st).2.history = []
    ∧ (clear_history st).1 = "Conversation history cleared." :=
  ⟨rfl, rfl⟩

/-- C10: the Anthropic message conversion is not a pure function of its
message-list argument: with the module global unset, a list with no
system message raises `NameError` out of the conversion; with a stale
global left by an earlier call, the same list silently gains the stale
system text; so two calls on identical input differ. -/
theorem anthropic_conversion_global_state :
    (convert_messages_to_anthropic_format none
        [{ role := Role.user, content := "hi" }]).1 = Except.error PyError.nameError
    ∧ (convert_messages_to_anthropic_format (some ("stale"))
        [{ role := Role.user, content := "hi" }]).1
      = Except.ok [{ role := Role.system, content := "stale" },
          { role := Role.user, content := "hi" }]
    ∧ (convert_messages_to_anthropic_format none
        [{ role := Role.user, content := "hi" }]).1
      ≠ (convert_messages_to_anthropic_format (some ("stale"))
        [{ role := Role.user, content := "hi" }]).1 := by
  refine ⟨rfl, rfl, fun h => Except.noConfusion h⟩

/-- C1 counterexample: gate-passing input `"python"`, provider fails; the
history after the call is NOT identical to the history before it — the
user turn appended at step 2 of `get_response` is never removed. -/
theorem failed_turn_counterexample :
    is_coding_related ("python") = true
    ∧ (get_response (fun _ => Except.error ("boom")) initial_state ("python")).2.history
        ≠ initial_state.history := by
  exact ⟨by decide, by decide⟩

/-- C1 amended: on a gate-passing input whose provider call fails, the
call returns the `"Error: ..."` string and leaves the history grown by
exactly the one `{user, input}` entry appended before the provider call
(no assistant entry). -/
theorem failed_turn_appends_exactly_user
    (p : List Message → Except String String) (st : AssistantState)
    (input e : String)
    (h1 : is_coding_related input = true)
    (h2 : p ({ role := Role.system, content := system_prompt } ::
        (st.history ++ [{ role := Role.user, content := input }])) = Except.error e) :
    get_response p st input
      = ("Error: " ++ e,
         { st with history := st.history ++ [{ role := Role.user, content := input }] }) := by
  simp only [get_response, add_to_history, h1, Bool.not_true, Bool.false_eq_true,
    if_false, h2]

/-- Witness for the amended C1 theorem: a concrete failing turn. -/
theorem failed_turn_appends_exactly_user_witness :
    get_response (fun _ => Except.error ("boom")) initial_state ("python")
      = ("Error: boom",
         { initial_state with history := [{ role := Role.user, content := "python" }] }) :=
  failed_turn_appends_exactly_user (fun _ => Except.error ("boom")) initial_state
    "python" "boom" (by decide) rfl

/-- C3: over any sequence of inputs that all pass the TopicGate, with a
provider that always succeeds, running the turns in order appends exactly
one `{user, input}` entry followed by one `{assistant, reply}` entry per
call, in call order; so from a history of length `L` the final length is
`L + 2N` (and `2N` from the empty initial history). -/
theorem successful_run_history (p : List Message → Except String String)
    (st : AssistantState) (inputs : List String)
    (hg : ∀ i ∈ inputs, is_coding_related i = true)
    (hp : ∀ msgs, ∃ t, p msgs = Except.ok t) :
    ∃ replies : List String,
      replies.length = inputs.length
      ∧ (run_list p st inputs).history
          = st.history ++ (inputs.zip replies).flatMap
              (fun ir => [{ role := Role.user, content := ir.1 },
                          { role := Role.assistant, content := ir.2 }])
      ∧ (run_list p st inputs).history.length
          = st.history.length + 2 * inputs.length := by
  induction inputs generalizing st with
  | nil => exact ⟨[], rfl, by simp [run_list], by simp [run_list]⟩
  | cons i rest ih =>
    have hgi : is_coding_related i = true := hg i (List.mem_cons_self i rest)
    obtain ⟨t, ht⟩ := hp ({ role := Role.system, content := system_prompt } ::
      (st.history ++ [{ role := Role.user, content := i }]))
    have hstep : (get_response p st i).2
        = { st with history := st.history ++
            [{ role := Role.user, content := i },
             { role := Role.assistant, content := t }] } := by
      simp only [get_response, add_to_history, hgi, Bool.not_true, Bool.false_eq_true,
        if_false, ht]
      simp
    obtain ⟨replies, hlen, hhist, hcount⟩ :=
      ih ({ st with history := st.history ++
            [{ role := Role.user, content := i },
             { role := Role.assistant, content := t }] })
        (fun j hj => hg j (List.mem_cons_of_mem i hj))
    refine ⟨t :: replies, by simp [hlen], ?_, ?_⟩
    · rw [show run_list p st (i :: rest) = run_list p (get_response p st i).2 rest from rfl,
        hstep, hhist]
      simp
    · rw [show run_list p st (i :: rest) = run_list p (get_response p st i).2 rest from rfl,
        hstep, hcount]
      simp
      omega

/-- Witness for C3: one successful turn from the fresh assistant. -/
theorem successful_run_history_witness :
    ∃ replies : List String,
      replies.length = (["python"] : List String).length
      ∧ (run_list (fun _ => Except.ok ("ok")) initial_state ["python"]).history
          = initial_state.history ++ ((["python"] : List String).zip replies).flatMap
              (fun ir => [{ role := Role.user, content := ir.1 },
                          { role := Role.assistant, content := ir.2 }])
      ∧ (run_list (fun _ => Except.ok ("ok")) initial_state ["python"]).history.length
          = initial_state.history.length + 2 * (["python"] : List String).length :=
  successful_run_history (fun _ => Except.ok ("ok")) initial_state ["python"]
    (by decide) (fun _ => ⟨"ok", rfl⟩)

/-- C4: an input failing the TopicGate yields the fixed refusal string
with the state untouched, and the result never depends on the provider
(it is not called); concretely the weather question fails the gate while
the Python-bug question passes it and is forwarded — when the provider
answers the forwarded list, that answer is returned. -/
theorem gate_refusal_frame (p q : List Message → Except String String)
    (st : AssistantState) (input : String)
    (h : is_coding_related input = false) :
    get_response p st input = (refusal_string, st)
    ∧ get_response p st input = get_response q st input
    ∧ is_coding_related ("What\x27s the weather today?") = false
    ∧ is_coding_related ("How do I fix this Python bug?") = true
    ∧ (∀ t, q ({ role := Role.system, content := system_prompt } ::
          (st.history ++ [{ role := Role.user, content := "How do I fix this Python bug?" }]))
        = Except.ok t →
        get_response q st ("How do I fix this Python bug?")
          = (t, { st with history := st.history ++
              [{ role := Role.user, content := "How do I fix this Python bug?" },
               { role := Role.assistant, content := t }] })) := by
  refine ⟨?_, ?_, by decide, by decide, ?_⟩
  · simp [get_response, h]
  · simp [get_response, h]
  · intro t ht
    simp only [get_response, add_to_history,
      show is_coding_related ("How do I fix this Python bug?") = true from by decide,
      Bool.not_true, Bool.false_eq_true, if_false, ht]
    simp

/-- Witness for C4 at the weather question, with two different providers
(one succeeding, one failing) to exhibit provider-independence. -/
theorem gate_refusal_frame_witness :
    get_response (fun _ => Except.ok ("a")) initial_state ("What\x27s the weather today?")
      = (refusal_string, initial_state)
    ∧ get_response (fun _ => Except.ok ("a")) initial_state ("What\x27s the weather today?")
      = get_response (fun _ => Except.error ("b")) initial_state ("What\x27s the weather today?") :=
  ⟨(gate_refusal_frame (fun _ => Except.ok ("a")) (fun _ => Except.error ("b"))
      initial_state ("What\x27s the weather today?") (by decide)).1,
   (gate_refusal_frame (fun _ => Except.ok ("a")) (fun _ => Except.error ("b"))
      initial_state ("What\x27s the weather today?") (by decide)).2.1⟩

/-- C5: `change_provider` is total (the embedding of its `try/except`
returns in every case), always returns a string, never changes the
conversation history, wraps the `Unsupported provider` failure text into
the returned error string, and on success returns the confirmation
naming the provider and the (possibly defaulted) model. -/
theorem change_provider_contract (st : AssistantState) (provider_name : String)
    (model_name api_key : Option String) :
    (change_provider st provider_name model_name api_key).2.history = st.history
    ∧ (∀ e, get_provider provider_name api_key = Except.error e →
        (change_provider st provider_name model_name api_key).1
          = "Error changing provider: " ++ e)
    ∧ (∀ prov, get_provider provider_name api_key = Except.ok prov →
        (change_provider st provider_name model_name api_key).1
          = "Provider changed to " ++ provider_name ++ " using model " ++
              py_str_opt (default_model provider_name model_name)) := by
  refine ⟨?_, ?_, ?_⟩
  · cases hgp : get_provider provider_name api_key with
    | error e => simp [change_provider, hgp]
    | ok prov => simp [change_provider, hgp]
  · intro e he
    simp [change_provider, he]
  · intro prov hprov
    simp [change_provider, hprov]

/-- Witness for C5 at the unknown vendor name `"grok"`. -/
theorem change_provider_contract_witness :
    (change_provider initial_state ("grok") none none).2.history = initial_state.history
    ∧ (change_provider initial_state ("grok") none none).1
        = "Error changing provider: " ++ "Unsupported provider: grok" :=
  ⟨(change_provider_contract initial_state ("grok") none none).1,
   (change_provider_contract initial_state ("grok") none none).2.1
     "Unsupported provider: grok" rfl⟩

/-- C8: a gate-passing `respond` consults the provider at exactly the
list `[{system, systemPrompt}]` followed by the full history including
the just-appended user turn: two providers agreeing on that single list
produce identical responses and identical final states. -/
theorem outbound_messages_full_history
    (p q : List Message → Except String String) (st : AssistantState)
    (input : String) (h : is_coding_related input = true)
    (hpq : p ({ role := Role.system, content := system_prompt } ::
          (st.history ++ [{ role := Role.user, content := input }]))
        = q ({ role := Role.system, content := system_prompt } ::
          (st.history ++ [{ role := Role.user, content := input }]))) :
    get_response p st input = get_response q st input := by
  simp only [get_response, add_to_history, h, Bool.not_true, Bool.false_eq_true, if_false]
  rw [hpq]

/-- Witness for C8: two syntactically different providers that agree on
the one outbound list give the same response. -/
theorem outbound_messages_full_history_witness :
    get_response (fun _ => Except.ok ("x")) initial_state ("python")
      = get_response
          (fun msgs => if msgs = [] then Except.error ("e") else Except.ok ("x"))
          initial_state ("python") :=
  outbound_messages_full_history (fun _ => Except.ok ("x"))
    (fun msgs => if msgs = [] then Except.error ("e") else Except.ok ("x"))
    initial_state ("python") (by decide) rfl
